import Mathlib

/-!
# The `hello` kernel module registration (src/hello.c)

`src/hello.c` is declarative: an external handler declaration, one static
`moduledata_t` record and one `DECLARE_MODULE` line.  The embedding keeps
that shape.  The handler is external to the file, so the record is a
function of whatever handler the linker supplies.  Types, macros and
constants that come from the kernel headers are either parameters or are
modelled from the specification, and say so.
-/

namespace Hello

/-! ## C types used by the file -/

/-- A C pointer as far as this file is concerned: `none` is `NULL`, `some a`
is the address `a`. -/
abbrev Ptr := Option Nat

/-- The type of `extern int module_event(struct module *, int, void *)`: a
module reference, an integer event kind and a data pointer go in, a signed
integer error code comes out. -/
abbrev modeventhand_t := Ptr → Int → Ptr → Int

/-- Modelled from the spec: the type `moduledata_t`, declared in
`<sys/module.h>` and not under src/.  Section 3 gives its three attributes
in the order of the initializer in src/hello.c: `name`, `event_handler`,
`private_data`. -/
structure moduledata_t where
  name : String
  event_handler : modeventhand_t
  private_data : Ptr

/-- Modelled from the spec: what one `DECLARE_MODULE(name, data, sub, order)`
line hands to the loader (the macro is defined in `<sys/module.h>`, not under
src/).  Section 6: a static declaration associating the record with an
initialization ordering bucket and an intra-bucket priority. -/
structure module_declaration where
  ident : String
  data : moduledata_t
  sub : Nat
  order : Nat

/-! ## src/hello.c -/

/-- Lines 37-41: `static moduledata_t module_data = { "hello", module_event, NULL };`.
The argument `evhand` stands for the external symbol `module_event`
(line 35), which this file declares and does not define. -/
def module_data (evhand : modeventhand_t) : moduledata_t :=
  { name := "hello"          -- module name
    event_handler := evhand  -- event handler
    private_data := none }   -- extra data

/-- Line 43: `DECLARE_MODULE(hello, module_data, SI_SUB_DRIVERS, SI_ORDER_MIDDLE);`,
the list of every registration the file makes.  The two ordering constants
come from `<sys/kernel.h>`, which is not under src/, and are parameters. -/
def declarations (SI_SUB_DRIVERS SI_ORDER_MIDDLE : Nat) (evhand : modeventhand_t) :
    List module_declaration :=
  [ { ident := "hello"
      data := module_data evhand
      sub := SI_SUB_DRIVERS
      order := SI_ORDER_MIDDLE } ]

/-- Modelled from the spec: the loader's call of a record's handler (the
loader is the kernel, not under src/).  Section 3: `private_data` is passed
unchanged to every event-handler invocation; section 4.1: the event kind is
passed to `event_handler`. -/
def invoke (rec : moduledata_t) (mod : Ptr) (what : Int) : Int :=
  rec.event_handler mod what rec.private_data

/-! ## The lifecycle contract (spec sections 4.1 and 7)

None of what follows is in src/hello.c: the loader is the kernel, and the
body of `module_event` lives outside the file. -/

/-- Modelled from the spec: the lifecycle states of section 4.1 (the loader
that keeps them is not under src/). -/
inductive State where
  | UNLOADED
  | LOADING
  | LOADED
  | UNLOADING
  deriving DecidableEq

/-- Modelled from the spec: the transition events of section 4.1 that the
loader passes to `event_handler`. -/
inductive Event where
  | LOAD
  | UNLOAD
  | SHUTDOWN
  deriving DecidableEq

/-- Modelled from the spec: the integer event kinds standing for the three
events.  Their values are fixed by `<sys/module.h>` (not under src/) and
are parameters. -/
structure EventKinds where
  LOAD : Int
  UNLOAD : Int
  SHUTDOWN : Int

/-- Modelled from the spec: the error-code taxonomy of section 7.  The
integer values are not given by the spec or by src/ and are parameters. -/
structure ErrorCodes where
  SUCCESS : Int
  LOAD_FAILURE : Int
  UNLOAD_BUSY : Int
  NOT_IMPLEMENTED : Int

/-- The integer the loader passes for an event. -/
def EventKinds.kind (K : EventKinds) : Event → Int
  | .LOAD => K.LOAD
  | .UNLOAD => K.UNLOAD
  | .SHUTDOWN => K.SHUTDOWN

/-- The event an integer kind stands for, if it is a recognized one. -/
def EventKinds.classify (K : EventKinds) (what : Int) : Option Event :=
  if what = K.LOAD then some .LOAD
  else if what = K.UNLOAD then some .UNLOAD
  else if what = K.SHUTDOWN then some .SHUTDOWN
  else none

/-- The codes of the taxonomy, as a list. -/
def ErrorCodes.taxonomy (C : ErrorCodes) : List Int :=
  [C.SUCCESS, C.LOAD_FAILURE, C.UNLOAD_BUSY, C.NOT_IMPLEMENTED]

/-- Modelled from the spec: the loader taking up an event (section 4.1,
`UNLOADED → LOADING → LOADED → UNLOADING → UNLOADED`).  `LOAD` starts
from `UNLOADED`, `UNLOAD` from `LOADED`; `SHUTDOWN` reaches a resident
module and starts no transition.  `none`: the loader does not deliver the
event in that state (section 5: calls are serial, so nothing is delivered
while a transition is under way). -/
def enter : State → Event → Option State
  | .UNLOADED, .LOAD => some .LOADING
  | .LOADED, .UNLOAD => some .UNLOADING
  | .LOADED, .SHUTDOWN => some .LOADED
  | _, _ => none

/-- Modelled from the spec: the loader acting on the handler's return code
`rc` (section 4.1).  On `LOAD` success moves to `LOADED` and a failure code
aborts the transition; on `UNLOAD` success moves to `UNLOADED` and a failure
code keeps the module `LOADED`; elsewhere the return value is informational
only. -/
def settle (C : ErrorCodes) : State → Int → State
  | .LOADING, rc => if rc = C.SUCCESS then .LOADED else .UNLOADED
  | .UNLOADING, rc => if rc = C.SUCCESS then .UNLOADED else .LOADED
  | s, _ => s

/-- One step of the lifecycle: the event is taken up, the handler returns
`rc`, the loader settles the state. -/
def step (C : ErrorCodes) (s : State) (ev : Event) (rc : Int) : Option State :=
  (enter s ev).map (fun t => settle C t rc)

/-- A run of the lifecycle: each entry is an event and the handler's return
code for it. -/
def run (C : ErrorCodes) : State → List (Event × Int) → Option State
  | s, [] => some s
  | s, (ev, rc) :: rest => (step C s ev rc).bind (fun t => run C t rest)

/-- One step of the lifecycle driven by a record: the return code is what
the record's handler returns for the event's integer kind. -/
def deliver (C : ErrorCodes) (K : EventKinds) (rec : moduledata_t) (mod : Ptr)
    (s : State) (ev : Event) : Option State :=
  step C s ev (invoke rec mod (K.kind ev))

/-- Modelled from the spec: what the contract leaves to the moment of the
call (section 7): whether initialization can complete, and whether a
resource is still in use. -/
structure Circumstances where
  init_completes : Bool
  in_use : Bool

/-- Modelled from the spec: the body of `module_event`, which src/hello.c
declares (line 35) and does not define.  Sections 4.1 and 7: `LOAD`
returns `SUCCESS`, or `LOAD_FAILURE` when initialization could not
complete; `UNLOAD` returns `SUCCESS`, or `UNLOAD_BUSY` when a resource is
still in use; `SHUTDOWN` is best-effort cleanup; an unrecognized event kind
returns `NOT_IMPLEMENTED`. -/
def module_event (C : ErrorCodes) (K : EventKinds) (w : Circumstances) : modeventhand_t :=
  fun _ what _ =>
    match K.classify what with
    | some .LOAD => if w.init_completes then C.SUCCESS else C.LOAD_FAILURE
    | some .UNLOAD => if w.in_use then C.UNLOAD_BUSY else C.SUCCESS
    | some .SHUTDOWN => C.SUCCESS
    | none => C.NOT_IMPLEMENTED

/-! ## Concrete values for evaluation

The values FreeBSD gives the constants; used only to evaluate the
definitions at concrete inputs. -/

/-- Event kinds `MOD_LOAD = 0`, `MOD_UNLOAD = 1`, `MOD_SHUTDOWN = 2`. -/
def freebsdKinds : EventKinds := ⟨0, 1, 2⟩

/-- Error codes `0`, `ENXIO = 6`, `EBUSY = 16`, `EOPNOTSUPP = 45`. -/
def freebsdCodes : ErrorCodes := ⟨0, 6, 16, 45⟩

/-! ## The record and its registration -/

/-- C1: the record's `name` is exactly the 5-character string "hello",
hence non-empty, whatever handler is linked in, and it is the name of the
record the one registration hands to the loader. -/
theorem module_data_name (SI_SUB_DRIVERS SI_ORDER_MIDDLE : Nat) (evhand : modeventhand_t) :
    (module_data evhand).name = "hello"
      ∧ (module_data evhand).name.length = 5
      ∧ (module_data evhand).name ≠ ""
      ∧ (declarations SI_SUB_DRIVERS SI_ORDER_MIDDLE evhand).map (fun d => d.data.name)
          = ["hello"] := by
  refine ⟨rfl, ?_, ?_, rfl⟩
  · show ("hello" : String).length = 5
    decide
  · show ("hello" : String) ≠ ""
    decide

/-- C2: the record's `event_handler` is the external callback itself, a
function of (module reference, integer event kind, data pointer) returning
a signed integer; the record has no other callback, and since the file
gives the callback no body, the record stores whichever one is supplied
(two records are equal exactly when their callbacks are). -/
theorem module_data_event_handler (evhand other : modeventhand_t) :
    (module_data evhand).event_handler = evhand
      ∧ (module_data evhand = module_data other ↔ evhand = other) := by
  refine ⟨rfl, ?_, ?_⟩
  · intro h
    exact congrArg moduledata_t.event_handler h
  · intro h
    rw [h]

/-- C3: the record's `private_data` is absent, so for every module
reference and every event kind the loader's call of the record's handler
passes the absent value as the data argument. -/
theorem module_data_private_data (evhand : modeventhand_t) :
    (module_data evhand).private_data = none
      ∧ ∀ (mod : Ptr) (what : Int),
          invoke (module_data evhand) mod what = evhand mod what none :=
  ⟨rfl, fun _ _ => rfl⟩

/-- C4: the file makes exactly one registration; it carries the record
`module_data`, the bucket `SI_SUB_DRIVERS` and the priority
`SI_ORDER_MIDDLE`, and the (bucket, priority) pair is the same whatever
handler is linked in. -/
theorem declarations_one_fixed_order (SI_SUB_DRIVERS SI_ORDER_MIDDLE : Nat)
    (evhand other : modeventhand_t) :
    (declarations SI_SUB_DRIVERS SI_ORDER_MIDDLE evhand).length = 1
      ∧ (declarations SI_SUB_DRIVERS SI_ORDER_MIDDLE evhand).map (fun d => d.data)
          = [module_data evhand]
      ∧ (declarations SI_SUB_DRIVERS SI_ORDER_MIDDLE evhand).map (fun d => (d.sub, d.order))
          = [(SI_SUB_DRIVERS, SI_ORDER_MIDDLE)]
      ∧ (declarations SI_SUB_DRIVERS SI_ORDER_MIDDLE evhand).map (fun d => (d.sub, d.order))
          = (declarations SI_SUB_DRIVERS SI_ORDER_MIDDLE other).map
              (fun d => (d.sub, d.order)) :=
  ⟨rfl, rfl, rfl, rfl⟩

/-- C10: the registration agrees with the record: the identifier it is
declared under spells the record's `name`, "hello"; the record registered
is `module_data` itself; so the handler the loader sees is the external
callback and the private data it sees is absent. -/
theorem declarations_consistent (SI_SUB_DRIVERS SI_ORDER_MIDDLE : Nat)
    (evhand : modeventhand_t) :
    (declarations SI_SUB_DRIVERS SI_ORDER_MIDDLE evhand).map (fun d => d.ident)
        = (declarations SI_SUB_DRIVERS SI_ORDER_MIDDLE evhand).map (fun d => d.data.name)
      ∧ (declarations SI_SUB_DRIVERS SI_ORDER_MIDDLE evhand).map (fun d => d.ident)
          = ["hello"]
      ∧ (declarations SI_SUB_DRIVERS SI_ORDER_MIDDLE evhand).map (fun d => d.data)
          = [module_data evhand]
      ∧ (declarations SI_SUB_DRIVERS SI_ORDER_MIDDLE evhand).map
            (fun d => d.data.event_handler) = [evhand]
      ∧ (declarations SI_SUB_DRIVERS SI_ORDER_MIDDLE evhand).map
            (fun d => d.data.private_data) = [none] :=
  ⟨rfl, rfl, rfl, rfl, rfl⟩

/-! ## The lifecycle -/

/-- The loader takes up `LOAD` only from `UNLOADED`, and the state after
the step is what `settle` makes of the return code. -/
theorem step_LOAD_eq_some (C : ErrorCodes) (s t : State) (rc : Int)
    (h : step C s .LOAD rc = some t) :
    s = .UNLOADED ∧ t = settle C .LOADING rc := by
  cases s <;> simp [step, enter] at h
  exact ⟨rfl, h.symm⟩

/-- A run over two traces in a row is the run over the second from where
the first one ends. -/
theorem run_append (C : ErrorCodes) (s : State) (pre post : List (Event × Int)) :
    run C s (pre ++ post) = (run C s pre).bind (fun t => run C t post) := by
  induction pre generalizing s with
  | nil => rfl
  | cons e rest ih =>
    obtain ⟨ev, rc⟩ := e
    simp only [List.cons_append, run]
    cases step C s ev rc with
    | none => rfl
    | some u => simpa using ih u

/-- C5: a `LOAD` that fails never leads to `LOADED`.  For every handler and
every run from `UNLOADED` whose last step delivers `LOAD` to the record and
ends in state `t`: a failure code from the handler leaves `t = UNLOADED`
(not resident), and `t = LOADED` holds exactly when the handler returned
success. -/
theorem load_failure_never_loaded (C : ErrorCodes) (K : EventKinds)
    (evhand : modeventhand_t) (mod : Ptr) (pre : List (Event × Int)) (t : State)
    (hrun : run C .UNLOADED
      (pre ++ [(.LOAD, invoke (module_data evhand) mod (K.kind .LOAD))]) = some t) :
    (evhand mod K.LOAD none ≠ C.SUCCESS → t ≠ .LOADED ∧ t = .UNLOADED)
      ∧ (t = .LOADED ↔ evhand mod K.LOAD none = C.SUCCESS) := by
  have hrc : invoke (module_data evhand) mod (K.kind .LOAD) = evhand mod K.LOAD none := rfl
  rw [hrc, run_append] at hrun
  cases hpre : run C .UNLOADED pre with
  | none => simp [hpre] at hrun
  | some s =>
    rw [hpre] at hrun
    have hstep : step C s .LOAD (evhand mod K.LOAD none) = some t := by
      cases hs : step C s .LOAD (evhand mod K.LOAD none) with
      | none => simp [run, hs] at hrun
      | some u => simpa [run, hs] using hrun
    obtain ⟨-, ht⟩ := step_LOAD_eq_some C s t _ hstep
    subst ht
    by_cases hs : evhand mod K.LOAD none = C.SUCCESS
    · simp [settle, hs]
    · simp [settle, hs]

/-- Witness for C5: after a failed and a successful load followed by a busy
and a successful unload, the handler of the specification, called when
initialization cannot complete, answers `LOAD` with a failure code and the
run ends in `UNLOADED`. -/
theorem load_failure_never_loaded_witness :
    run freebsdCodes .UNLOADED
        ([(.LOAD, 6), (.LOAD, 0), (.UNLOAD, 16), (.UNLOAD, 0)] ++
          [(.LOAD, invoke (module_data (module_event freebsdCodes freebsdKinds ⟨false, false⟩))
              none (freebsdKinds.kind .LOAD))]) = some .UNLOADED
      ∧ ((module_event freebsdCodes freebsdKinds ⟨false, false⟩ none freebsdKinds.LOAD none
            ≠ freebsdCodes.SUCCESS → State.UNLOADED ≠ .LOADED ∧ State.UNLOADED = .UNLOADED)
        ∧ (State.UNLOADED = .LOADED ↔
            module_event freebsdCodes freebsdKinds ⟨false, false⟩ none freebsdKinds.LOAD none
              = freebsdCodes.SUCCESS)) :=
  ⟨by decide,
    load_failure_never_loaded freebsdCodes freebsdKinds
      (module_event freebsdCodes freebsdKinds ⟨false, false⟩) none
      [(.LOAD, 6), (.LOAD, 0), (.UNLOAD, 16), (.UNLOAD, 0)] .UNLOADED (by decide)⟩

/-- C6: from `LOADED`, an `UNLOAD` whose handler result is a failure code
(busy) leaves the state `LOADED`, and a following `UNLOAD` whose handler
result is success moves the state to `UNLOADED`. -/
theorem unload_busy_then_retry (C : ErrorCodes) (rc_busy rc_ok : Int)
    (hbusy : rc_busy ≠ C.SUCCESS) (hok : rc_ok = C.SUCCESS) :
    step C .LOADED .UNLOAD rc_busy = some .LOADED
      ∧ step C .LOADED .UNLOAD rc_ok = some .UNLOADED
      ∧ run C .LOADED [(.UNLOAD, rc_busy), (.UNLOAD, rc_ok)] = some .UNLOADED := by
  have h1 : step C .LOADED .UNLOAD rc_busy = some .LOADED := by
    simp [step, enter, settle, hbusy]
  have h2 : step C .LOADED .UNLOAD rc_ok = some .UNLOADED := by
    simp [step, enter, settle, hok]
  refine ⟨h1, h2, ?_⟩
  simp [run, h1, h2]

/-- Witness for C6: the busy code 16 and then the success code 0. -/
theorem unload_busy_then_retry_witness :
    (16 : Int) ≠ freebsdCodes.SUCCESS ∧ (0 : Int) = freebsdCodes.SUCCESS
      ∧ step freebsdCodes .LOADED .UNLOAD 16 = some .LOADED
      ∧ step freebsdCodes .LOADED .UNLOAD 0 = some .UNLOADED
      ∧ run freebsdCodes .LOADED [(.UNLOAD, 16), (.UNLOAD, 0)] = some .UNLOADED :=
  ⟨by decide, by decide,
    unload_busy_then_retry freebsdCodes 16 0 (by decide) (by decide)⟩

/-- The lifecycle alone: a `LOAD` and then an `UNLOAD`, both answered with
success, take `UNLOADED` to `LOADED` and back to `UNLOADED`.  This says
nothing about what the handler allocated or released in between. -/
theorem run_load_unload_success (C : ErrorCodes) :
    run C .UNLOADED [(.LOAD, C.SUCCESS)] = some .LOADED
      ∧ run C .UNLOADED [(.LOAD, C.SUCCESS), (.UNLOAD, C.SUCCESS)] = some .UNLOADED := by
  simp [run, step, enter, settle]

/-! ## The handler -/

/-- C7: for every integer event kind that is none of `LOAD`, `UNLOAD`,
`SHUTDOWN`, the record's handler, called by the loader, returns
`NOT_IMPLEMENTED`. -/
theorem module_event_unrecognized (C : ErrorCodes) (K : EventKinds) (w : Circumstances)
    (mod : Ptr) (what : Int)
    (hload : what ≠ K.LOAD) (hunload : what ≠ K.UNLOAD) (hshutdown : what ≠ K.SHUTDOWN) :
    invoke (module_data (module_event C K w)) mod what = C.NOT_IMPLEMENTED := by
  simp [invoke, module_data, module_event, EventKinds.classify, hload, hunload, hshutdown]

/-- Witness for C7: event kind 3 with the kinds 0, 1, 2 recognized. -/
theorem module_event_unrecognized_witness :
    (3 : Int) ≠ freebsdKinds.LOAD ∧ (3 : Int) ≠ freebsdKinds.UNLOAD
      ∧ (3 : Int) ≠ freebsdKinds.SHUTDOWN
      ∧ invoke (module_data (module_event freebsdCodes freebsdKinds ⟨true, false⟩)) none 3
          = freebsdCodes.NOT_IMPLEMENTED :=
  ⟨by decide, by decide, by decide,
    module_event_unrecognized freebsdCodes freebsdKinds ⟨true, false⟩ none 3
      (by decide) (by decide) (by decide)⟩

/-- C9: for each of `LOAD`, `UNLOAD` and `SHUTDOWN`, under all
circumstances, the record's handler, called by the loader with the event's
integer kind, returns one of the four codes of the taxonomy. -/
theorem module_event_defined_code (C : ErrorCodes) (K : EventKinds) (w : Circumstances)
    (mod : Ptr) (ev : Event) :
    invoke (module_data (module_event C K w)) mod (K.kind ev) ∈ C.taxonomy := by
  simp only [invoke, module_data, module_event, ErrorCodes.taxonomy]
  cases K.classify (K.kind ev) with
  | none => simp
  | some e =>
    cases e
    · cases w.init_completes <;> simp
    · cases w.in_use <;> simp
    · simp

end Hello
